import Mathlib

/-!
Verification of the SportsWorldCentral (SWC) Fantasy Football read-only API
(`src/chapter5/main.py`, `src/chapter4/database.py`).

Dates are modelled as natural numbers (days since an epoch); their only use
in the code is the ordering comparison of `minimum_last_changed_date`.
Database tables are lists of rows in the store's stable default order
(identifier-ascending per the design notes).
-/

/-- A Player row: id, first name, last name, last-changed timestamp. -/
structure Player where
  player_id : Nat
  first_name : String
  last_name : String
  last_changed_date : Nat
deriving Repr, DecidableEq

/-- A Performance row: id, player reference, scoring field, last-changed
timestamp. -/
structure Performance where
  performance_id : Nat
  player_id : Nat
  fantasy_points : Int
  last_changed_date : Nat
deriving Repr, DecidableEq

/-- A League row: id, name, last-changed timestamp. -/
structure League where
  league_id : Nat
  league_name : String
  last_changed_date : Nat
deriving Repr, DecidableEq

/-- A Team row: id, name, league reference, last-changed timestamp. -/
structure Team where
  team_id : Nat
  team_name : String
  league_id : Nat
  last_changed_date : Nat
deriving Repr, DecidableEq

/-- The relational store: the four entity tables, each in stable default
order. -/
structure DB where
  players : List Player
  performances : List Performance
  leagues : List League
  teams : List Team
deriving Repr, DecidableEq

/-- The composite result of `/v0/counts` (`schemas.Counts`). -/
structure Counts where
  league_count : Nat
  team_count : Nat
  player_count : Nat
deriving Repr, DecidableEq

/-- The payload of `HTTPException(status_code=..., detail=...)` as raised in `main.py`. -/
structure HTTPError where
  status_code : Nat
  detail : String
deriving Repr, DecidableEq

/-- An optional filter: when the parameter is absent (`none`) every row
passes; when present the predicate is applied. -/
def optFilter (o : Option β) (p : β → α → Bool) (x : α) : Bool :=
  match o with
  | none => true
  | some b => p b x

/-- Offset-based pagination: skip `skip` rows, then return at most `limit`
rows (SQLAlchemy `query.offset(skip).limit(limit).all()`). -/
def paginate (l : List α) (skip limit : Nat) : List α :=
  (l.drop skip).take limit

/-- Row predicate of `crud.get_players`: AND of the inclusive
last-changed-date lower bound and the first/last-name equality filters,
each applied only when supplied. -/
def playerMatches (min_last_changed_date : Option Nat)
    (first_name last_name : Option String) (p : Player) : Bool :=
  optFilter min_last_changed_date (fun d q => decide (d ≤ q.last_changed_date)) p &&
  optFilter first_name (fun s q => q.first_name == s) p &&
  optFilter last_name (fun s q => q.last_name == s) p

/-- Row predicate of `crud.get_performance`: only the inclusive
last-changed-date lower bound, applied when supplied. -/
def performanceMatches (min_last_changed_date : Option Nat)
    (p : Performance) : Bool :=
  optFilter min_last_changed_date (fun d q => decide (d ≤ q.last_changed_date)) p

/-- Row predicate of `crud.get_leagues`: AND of the inclusive
last-changed-date lower bound and the league-name equality filter, each
applied only when supplied. -/
def leagueMatches (min_last_changed_date : Option Nat)
    (league_name : Option String) (l : League) : Bool :=
  optFilter min_last_changed_date (fun d q => decide (d ≤ q.last_changed_date)) l &&
  optFilter league_name (fun s q => q.league_name == s) l

/-- Row predicate of `crud.get_teams`: AND of the inclusive
last-changed-date lower bound, the team-name equality filter and the
league-reference equality filter, each applied only when supplied. -/
def teamMatches (min_last_changed_date : Option Nat)
    (team_name : Option String) (league_id : Option Nat) (t : Team) : Bool :=
  optFilter min_last_changed_date (fun d q => decide (d ≤ q.last_changed_date)) t &&
  optFilter team_name (fun s q => q.team_name == s) t &&
  optFilter league_id (fun i q => q.league_id == i) t

namespace crud

/-- Modelled from the spec: `crud.get_players` is not under `src/`; per
§4.1 it returns the matching players in stable order, after skipping
`skip` matches, at most `limit` rows, filters composed with logical AND. -/
def get_players (db : DB) (skip limit : Nat) (min_last_changed_date : Option Nat)
    (first_name last_name : Option String) : List Player :=
  paginate (db.players.filter (playerMatches min_last_changed_date first_name last_name)) skip limit

/-- Modelled from the spec: `crud.get_player` is not under `src/`; per §4.2
it returns the matching player row for an integer identifier, if present. -/
def get_player (db : DB) (player_id : Nat) : Option Player :=
  db.players.find? (fun p => p.player_id == player_id)

/-- Modelled from the spec: `crud.get_performance` is not under `src/`; per
§4.1 it returns the matching performances (date bound only), paginated. -/
def get_performance (db : DB) (skip limit : Nat)
    (min_last_changed_date : Option Nat) : List Performance :=
  paginate (db.performances.filter (performanceMatches min_last_changed_date)) skip limit

/-- Modelled from the spec: `crud.get_leagues` is not under `src/`; per
§4.1 it returns the matching leagues, paginated. -/
def get_leagues (db : DB) (skip limit : Nat) (min_last_changed_date : Option Nat)
    (league_name : Option String) : List League :=
  paginate (db.leagues.filter (leagueMatches min_last_changed_date league_name)) skip limit

/-- Modelled from the spec: `crud.get_league` is not under `src/`; per §4.2
it returns the matching league row for an integer identifier, if present. -/
def get_league (db : DB) (league_id : Nat) : Option League :=
  db.leagues.find? (fun l => l.league_id == league_id)

/-- Modelled from the spec: `crud.get_teams` is not under `src/`; per §4.1
it returns the matching teams, paginated. -/
def get_teams (db : DB) (skip limit : Nat) (min_last_changed_date : Option Nat)
    (team_name : Option String) (league_id : Option Nat) : List Team :=
  paginate (db.teams.filter (teamMatches min_last_changed_date team_name league_id)) skip limit

/-- Modelled from the spec: `crud.get_league_count` is not under `src/`;
per §4.3 it returns the total row count of the leagues table. -/
def get_league_count (db : DB) : Nat := db.leagues.length

/-- Modelled from the spec: `crud.get_team_count` is not under `src/`; per
§4.3 it returns the total row count of the teams table. -/
def get_team_count (db : DB) : Nat := db.teams.length

/-- Modelled from the spec: `crud.get_player_count` is not under `src/`;
per §4.3 it returns the total row count of the players table. -/
def get_player_count (db : DB) : Nat := db.players.length

end crud

/-- Handler `main.read_players` (`GET /v0/players/`): delegates to
`crud.get_players` with the bound query parameters. -/
def read_players (db : DB) (skip limit : Nat) (minimum_last_changed_date : Option Nat)
    (first_name last_name : Option String) : List Player :=
  crud.get_players db skip limit minimum_last_changed_date first_name last_name

/-- Handler `main.read_player` (`GET /v0/players/{player_id}`): returns the player,
or raises `HTTPException(404, "Player not found")` when `crud.get_player`
yields nothing. -/
def read_player (db : DB) (player_id : Nat) : Except HTTPError Player :=
  match crud.get_player db player_id with
  | none => .error ⟨404, "Player not found"⟩
  | some p => .ok p

/-- Handler `main.read_performances` (`GET /v0/performances/`): delegates to
`crud.get_performance`. -/
def read_performances (db : DB) (skip limit : Nat)
    (minimum_last_changed_date : Option Nat) : List Performance :=
  crud.get_performance db skip limit minimum_last_changed_date

/-- Handler `main.read_league` (`GET /v0/leagues/{league_id}`): returns the league,
or raises `HTTPException(404, "League not found")` when `crud.get_league`
yields nothing. -/
def read_league (db : DB) (league_id : Nat) : Except HTTPError League :=
  match crud.get_league db league_id with
  | none => .error ⟨404, "League not found"⟩
  | some l => .ok l

/-- Handler `main.read_leagues` (`GET /v0/leagues/`): delegates to
`crud.get_leagues`. -/
def read_leagues (db : DB) (skip limit : Nat) (minimum_last_changed_date : Option Nat)
    (league_name : Option String) : List League :=
  crud.get_leagues db skip limit minimum_last_changed_date league_name

/-- Handler `main.read_teams` (`GET /v0/teams/`): delegates to `crud.get_teams`. -/
def read_teams (db : DB) (skip limit : Nat) (minimum_last_changed_date : Option Nat)
    (team_name : Option String) (league_id : Option Nat) : List Team :=
  crud.get_teams db skip limit minimum_last_changed_date team_name league_id

/-- Handler `main.get_count` (`GET /v0/counts`): builds `schemas.Counts` from the
three crud count queries. -/
def get_count (db : DB) : Counts :=
  { league_count := crud.get_league_count db
    team_count := crud.get_team_count db
    player_count := crud.get_player_count db }

/-- Handler `main.root` (`GET /`): the health-check message. -/
def root : String := "API health check successful"

/-! HTTP parameter binding.

FastAPI binds each declared `Query` parameter from the request's query
string, substituting the declared default when the parameter is absent, and
ignores query-string parameters the handler does not declare. A query
string is modelled as a record of the optional parameters that appear
anywhere on the API surface; each endpoint's binder reads only the
parameters its handler declares. -/

/-- The query-string parameters of a request, each absent or present. -/
structure QueryString where
  skip : Option Nat := none
  limit : Option Nat := none
  minimum_last_changed_date : Option Nat := none
  first_name : Option String := none
  last_name : Option String := none
  league_name : Option String := none
  team_name : Option String := none
  league_id : Option Nat := none
  player_id : Option Nat := none
deriving Repr, DecidableEq

/-- Endpoint `GET /v0/players/` with a raw query string: binds `skip` (default 0),
`limit` (default 100), the date and the two name filters. -/
def handle_players (db : DB) (q : QueryString) : List Player :=
  read_players db (q.skip.getD 0) (q.limit.getD 100)
    q.minimum_last_changed_date q.first_name q.last_name

/-- Endpoint `GET /v0/performances/` with a raw query string: binds `skip`
(default 0), `limit` (default 100) and the date filter only — the handler
declares no other parameter. -/
def handle_performances (db : DB) (q : QueryString) : List Performance :=
  read_performances db (q.skip.getD 0) (q.limit.getD 100)
    q.minimum_last_changed_date

/-- Endpoint `GET /v0/leagues/` with a raw query string. -/
def handle_leagues (db : DB) (q : QueryString) : List League :=
  read_leagues db (q.skip.getD 0) (q.limit.getD 100)
    q.minimum_last_changed_date q.league_name

/-- Endpoint `GET /v0/teams/` with a raw query string. -/
def handle_teams (db : DB) (q : QueryString) : List Team :=
  read_teams db (q.skip.getD 0) (q.limit.getD 100)
    q.minimum_last_changed_date q.team_name q.league_id

/-! Requests, responses and the scoped database session.

`get_db` (`main.py` lines 36–41) creates a session with `SessionLocal()`,
yields it to the handler, and closes it in a `finally` block, so the close
runs on every exit path, including when the handler raises
`HTTPException`. A handler invocation is modelled as: acquire a fresh
session, run the handler body (which may succeed or raise), then release
the session unconditionally. -/

/-- One inbound API request. -/
inductive Request where
  | root : Request
  | players (q : QueryString) : Request
  | player (player_id : Nat) : Request
  | performances (q : QueryString) : Request
  | leagues (q : QueryString) : Request
  | league (league_id : Nat) : Request
  | teams (q : QueryString) : Request
  | counts : Request
deriving Repr, DecidableEq

/-- A serialized response body, or the raised `HTTPException`. -/
inductive Response where
  | message (s : String) : Response
  | players (l : List Player) : Response
  | player (p : Player) : Response
  | performances (l : List Performance) : Response
  | leagues (l : List League) : Response
  | league (l : League) : Response
  | teams (l : List Team) : Response
  | counts (c : Counts) : Response
  | error (e : HTTPError) : Response
deriving Repr, DecidableEq

/-- Lifecycle events of the request-scoped database session. -/
inductive SessionEvent where
  | acquired : SessionEvent
  | released : SessionEvent
deriving Repr, DecidableEq

/-- The handler body for a request, given the session's view of the store:
the pure read each endpoint performs. `read_player` and `read_league` may
raise; every other endpoint returns a value. -/
def handlerBody (req : Request) (db : DB) : Except HTTPError Response :=
  match req with
  | .root => .ok (.message root)
  | .players q => .ok (.players (handle_players db q))
  | .player pid => (read_player db pid).map .player
  | .performances q => .ok (.performances (handle_performances db q))
  | .leagues q => .ok (.leagues (handle_leagues db q))
  | .league lid => (read_league db lid).map .league
  | .teams q => .ok (.teams (handle_teams db q))
  | .counts => .ok (.counts (get_count db))

/-- Serve one request: acquire a session (`SessionLocal()`), run the
handler body against the store, release the session in `finally`
regardless of whether the body succeeded or raised, and serialize the
outcome (an `HTTPException` becomes an error response). Returns the
response, the store after the request, and the session-event trace of the
invocation. -/
def serve (req : Request) (db : DB) : Response × DB × List SessionEvent :=
  let events₀ := [SessionEvent.acquired]
  let outcome := handlerBody req db
  let events := events₀ ++ [SessionEvent.released]
  match outcome with
  | .ok r => (r, db, events)
  | .error e => (.error e, db, events)

/-! General lemmas about pagination, and a small concrete store used to
instantiate the hypotheses of the endpoint theorems. -/

/-- A page is never longer than `limit`. -/
theorem paginate_length_le (l : List α) (skip limit : Nat) :
    (paginate l skip limit).length ≤ limit := by
  simp only [paginate, List.length_take]
  exact Nat.min_le_left _ _

/-- A member of a page is a member of the underlying result set. -/
theorem mem_of_mem_paginate {l : List α} {skip limit : Nat} {x : α}
    (h : x ∈ paginate l skip limit) : x ∈ l :=
  List.mem_of_mem_drop (List.mem_of_mem_take h)

/-- Concatenating the pages at offsets `0, limit, 2·limit, …` rebuilds the
whole result set, once there are enough pages to cover it. -/
theorem paginate_flatten (l : List α) (limit : Nat) :
    ∀ n, l.length ≤ n * limit →
      ((List.range n).map (fun i => paginate l (i * limit) limit)).flatten = l := by
  intro n
  induction n generalizing l with
  | zero =>
    intro h
    have hl : l = [] := List.eq_nil_of_length_eq_zero (Nat.le_zero.mp (by simpa using h))
    subst hl
    simp
  | succ n ih =>
    intro h
    rw [List.range_succ_eq_map, List.map_cons, List.map_map, List.flatten_cons]
    have hfun : ((fun i => paginate l (i * limit) limit) ∘ Nat.succ)
        = fun i => paginate (l.drop limit) (i * limit) limit := by
      funext i
      simp only [Function.comp_apply, paginate, List.drop_drop]
      rw [Nat.succ_mul, Nat.add_comm]
    have h2 : (l.drop limit).length ≤ n * limit := by
      rw [List.length_drop]
      rw [Nat.succ_mul] at h
      omega
    rw [hfun, ih _ h2]
    simp [paginate, List.take_append_drop]

/-- A small concrete store used to witness the endpoint theorems. -/
def sampleDB : DB where
  players := [⟨1, "Tom", "Brady", 5⟩, ⟨2, "Aaron", "Rodgers", 10⟩, ⟨3, "Joe", "Montana", 3⟩]
  performances := [⟨1, 1, 20, 7⟩, ⟨2, 2, 15, 2⟩]
  leagues := [⟨1, "AlphaLeague", 4⟩, ⟨2, "BetaLeague", 9⟩]
  teams := [⟨1, "Patriots", 1, 6⟩, ⟨2, "Packers", 2, 1⟩]

/-- C1: for every listing endpoint (players, performances, leagues, teams)
and every valid `skip` and `limit`, the returned list has length at most
`limit`, and concatenating the pages obtained at offsets
`0, limit, 2·limit, …` (same filters, no concurrent writes) equals the
unpaginated result — the full filtered table — with no duplicate and no
missing entity. -/
theorem listing_pagination_correct (db : DB) (skip limit n : Nat)
    (md : Option Nat) (fn ln lname tname : Option String) (li : Option Nat) :
    ((read_players db skip limit md fn ln).length ≤ limit ∧
     (read_performances db skip limit md).length ≤ limit ∧
     (read_leagues db skip limit md lname).length ≤ limit ∧
     (read_teams db skip limit md tname li).length ≤ limit) ∧
    ((db.players.filter (playerMatches md fn ln)).length ≤ n * limit →
      ((List.range n).map (fun i => read_players db (i * limit) limit md fn ln)).flatten
        = db.players.filter (playerMatches md fn ln)) ∧
    ((db.performances.filter (performanceMatches md)).length ≤ n * limit →
      ((List.range n).map (fun i => read_performances db (i * limit) limit md)).flatten
        = db.performances.filter (performanceMatches md)) ∧
    ((db.leagues.filter (leagueMatches md lname)).length ≤ n * limit →
      ((List.range n).map (fun i => read_leagues db (i * limit) limit md lname)).flatten
        = db.leagues.filter (leagueMatches md lname)) ∧
    ((db.teams.filter (teamMatches md tname li)).length ≤ n * limit →
      ((List.range n).map (fun i => read_teams db (i * limit) limit md tname li)).flatten
        = db.teams.filter (teamMatches md tname li)) := by
  refine ⟨⟨paginate_length_le _ _ _, paginate_length_le _ _ _,
           paginate_length_le _ _ _, paginate_length_le _ _ _⟩, ?_, ?_, ?_, ?_⟩ <;>
    exact fun h => paginate_flatten _ _ _ h

/-- Witness for C1 on the sample store: page length bound and exact page
reassembly for all four listing endpoints with `limit = 2` and two pages. -/
theorem listing_pagination_correct_witness :
    (read_players sampleDB 1 2 none none none).length ≤ 2 ∧
    ((List.range 2).map (fun i => read_players sampleDB (i * 2) 2 none none none)).flatten
      = sampleDB.players.filter (playerMatches none none none) ∧
    ((List.range 2).map (fun i => read_performances sampleDB (i * 2) 2 none)).flatten
      = sampleDB.performances.filter (performanceMatches none) ∧
    ((List.range 2).map (fun i => read_leagues sampleDB (i * 2) 2 none none)).flatten
      = sampleDB.leagues.filter (leagueMatches none none) ∧
    ((List.range 2).map (fun i => read_teams sampleDB (i * 2) 2 none none none)).flatten
      = sampleDB.teams.filter (teamMatches none none none) := by
  have h := listing_pagination_correct sampleDB 1 2 2 none none none none none none
  exact ⟨h.1.1, h.2.1 (by decide), h.2.2.1 (by decide),
         h.2.2.2.1 (by decide), h.2.2.2.2 (by decide)⟩

/-- C2: for every listing endpoint, when `minimum_last_changed_date = D` is
supplied every returned entity has last-changed timestamp `≥ D` (the bound
is inclusive); when it is absent no lower bound on the timestamp is
imposed — the result is the pagination of the table filtered only by the
other filters, so all rows are eligible. -/
theorem min_date_filter_inclusive (db : DB) (skip limit D : Nat)
    (fn ln lname tname : Option String) (li : Option Nat) :
    ((∀ p ∈ read_players db skip limit (some D) fn ln, D ≤ p.last_changed_date) ∧
     (∀ x ∈ read_performances db skip limit (some D), D ≤ x.last_changed_date) ∧
     (∀ l ∈ read_leagues db skip limit (some D) lname, D ≤ l.last_changed_date) ∧
     (∀ t ∈ read_teams db skip limit (some D) tname li, D ≤ t.last_changed_date)) ∧
    (read_players db skip limit none fn ln
       = paginate (db.players.filter fun p =>
           optFilter fn (fun s q => q.first_name == s) p &&
           optFilter ln (fun s q => q.last_name == s) p) skip limit ∧
     read_performances db skip limit none = paginate db.performances skip limit ∧
     read_leagues db skip limit none lname
       = paginate (db.leagues.filter fun l =>
           optFilter lname (fun s q => q.league_name == s) l) skip limit ∧
     read_teams db skip limit none tname li
       = paginate (db.teams.filter fun t =>
           optFilter tname (fun s q => q.team_name == s) t &&
           optFilter li (fun i q => q.league_id == i) t) skip limit) := by
  refine ⟨⟨?_, ?_, ?_, ?_⟩, ?_, ?_, ?_, ?_⟩
  · intro p hp
    have hf := (List.mem_filter.mp (mem_of_mem_paginate hp)).2
    simp only [playerMatches, optFilter, Bool.and_eq_true, decide_eq_true_eq] at hf
    exact hf.1.1
  · intro x hx
    have hf := (List.mem_filter.mp (mem_of_mem_paginate hx)).2
    simpa only [performanceMatches, optFilter, decide_eq_true_eq] using hf
  · intro l hl
    have hf := (List.mem_filter.mp (mem_of_mem_paginate hl)).2
    simp only [leagueMatches, optFilter, Bool.and_eq_true, decide_eq_true_eq] at hf
    exact hf.1
  · intro t ht
    have hf := (List.mem_filter.mp (mem_of_mem_paginate ht)).2
    simp only [teamMatches, optFilter, Bool.and_eq_true, decide_eq_true_eq] at hf
    exact hf.1.1
  · exact congrArg (fun l => paginate l skip limit)
      (List.filter_congr (fun x _ => by simp [playerMatches, optFilter]))
  · show paginate (db.performances.filter (performanceMatches none)) skip limit = _
    rw [show db.performances.filter (performanceMatches none) = db.performances by
      simp [performanceMatches, optFilter]]
  · exact congrArg (fun l => paginate l skip limit)
      (List.filter_congr (fun x _ => by simp [leagueMatches, optFilter]))
  · exact congrArg (fun l => paginate l skip limit)
      (List.filter_congr (fun x _ => by simp [teamMatches, optFilter]))

/-- Witness for C2 on the sample store: rows returned under the bound
`D = 5` (players, performances) and `D = 5` (leagues, teams) indeed carry
timestamps at or above the bound. -/
theorem min_date_filter_inclusive_witness :
    5 ≤ (Player.mk 2 "Aaron" "Rodgers" 10).last_changed_date ∧
    5 ≤ (Performance.mk 1 1 20 7).last_changed_date ∧
    5 ≤ (League.mk 2 "BetaLeague" 9).last_changed_date ∧
    5 ≤ (Team.mk 1 "Patriots" 1 6).last_changed_date := by
  have h := min_date_filter_inclusive sampleDB 0 100 5 none none none none none
  exact ⟨h.1.1 (Player.mk 2 "Aaron" "Rodgers" 10) (by decide),
         h.1.2.1 (Performance.mk 1 1 20 7) (by decide),
         h.1.2.2.1 (League.mk 2 "BetaLeague" 9) (by decide),
         h.1.2.2.2 (Team.mk 1 "Patriots" 1 6) (by decide)⟩

/-- C3: the single-entity lookups `GET /v0/players/{player_id}` and
`GET /v0/leagues/{league_id}` return the matching entity when a row with
that identifier exists, and signal the not-found condition — HTTP 404 with
its descriptive message — when no such row exists; the success value is
always a complete row of the table, never partial or null. -/
theorem single_lookup_404 (db : DB) (pid lid : Nat) :
    ((∃ p ∈ db.players, p.player_id = pid) →
       ∃ p, read_player db pid = Except.ok p ∧ p ∈ db.players ∧ p.player_id = pid) ∧
    ((∀ p ∈ db.players, p.player_id ≠ pid) →
       read_player db pid = Except.error ⟨404, "Player not found"⟩) ∧
    ((∃ l ∈ db.leagues, l.league_id = lid) →
       ∃ l, read_league db lid = Except.ok l ∧ l ∈ db.leagues ∧ l.league_id = lid) ∧
    ((∀ l ∈ db.leagues, l.league_id ≠ lid) →
       read_league db lid = Except.error ⟨404, "League not found"⟩) := by
  refine ⟨?_, ?_, ?_, ?_⟩
  · rintro ⟨p, hp, hid⟩
    cases hfind : crud.get_player db pid with
    | none =>
      rw [crud.get_player, List.find?_eq_none] at hfind
      exact absurd (by simpa using hid) (by simpa using hfind p hp)
    | some q =>
      exact ⟨q, by simp [read_player, hfind],
             List.mem_of_find?_eq_some hfind,
             by simpa using List.find?_some hfind⟩
  · intro hall
    have hnone : crud.get_player db pid = none := by
      rw [crud.get_player, List.find?_eq_none]
      intro x hx
      simpa using hall x hx
    simp [read_player, hnone]
  · rintro ⟨l, hl, hid⟩
    cases hfind : crud.get_league db lid with
    | none =>
      rw [crud.get_league, List.find?_eq_none] at hfind
      exact absurd (by simpa using hid) (by simpa using hfind l hl)
    | some q =>
      exact ⟨q, by simp [read_league, hfind],
             List.mem_of_find?_eq_some hfind,
             by simpa using List.find?_some hfind⟩
  · intro hall
    have hnone : crud.get_league db lid = none := by
      rw [crud.get_league, List.find?_eq_none]
      intro x hx
      simpa using hall x hx
    simp [read_league, hnone]

/-- Witness for C3 on the sample store: id 2 is found among players, id 1
among leagues, and ids 99 yield the 404 errors with their messages. -/
theorem single_lookup_404_witness :
    (∃ p, read_player sampleDB 2 = Except.ok p ∧ p ∈ sampleDB.players ∧ p.player_id = 2) ∧
    read_player sampleDB 99 = Except.error ⟨404, "Player not found"⟩ ∧
    (∃ l, read_league sampleDB 1 = Except.ok l ∧ l ∈ sampleDB.leagues ∧ l.league_id = 1) ∧
    read_league sampleDB 99 = Except.error ⟨404, "League not found"⟩ :=
  ⟨(single_lookup_404 sampleDB 2 1).1 ⟨Player.mk 2 "Aaron" "Rodgers" 10, by decide, rfl⟩,
   (single_lookup_404 sampleDB 99 99).2.1 (by decide),
   (single_lookup_404 sampleDB 2 1).2.2.1 ⟨League.mk 1 "AlphaLeague" 4, by decide, rfl⟩,
   (single_lookup_404 sampleDB 99 99).2.2.2 (by decide)⟩

/-- C4: `GET /v0/counts` returns a composite whose `league_count`,
`team_count` and `player_count` fields equal the unpaginated full-table
row counts of the leagues, teams and players tables, with no filtering or
pagination applied. -/
theorem counts_match_tables (db : DB) :
    (get_count db).league_count = db.leagues.length ∧
    (get_count db).team_count = db.teams.length ∧
    (get_count db).player_count = db.players.length :=
  ⟨rfl, rfl, rfl⟩

/-- C5: for every listing endpoint, supplied filters compose with logical
AND — an entity appears in the result only if it satisfies every supplied
entity-specific filter (first/last name for players, league name for
leagues, team name and league reference for teams) and the
`minimum_last_changed_date` bound when present. -/
theorem filters_compose_with_and (db : DB) (skip limit : Nat) (md : Option Nat)
    (fn ln lname tname : Option String) (li : Option Nat) :
    (∀ p ∈ read_players db skip limit md fn ln,
       (∀ d, md = some d → d ≤ p.last_changed_date) ∧
       (∀ s, fn = some s → p.first_name = s) ∧
       (∀ s, ln = some s → p.last_name = s)) ∧
    (∀ x ∈ read_performances db skip limit md,
       ∀ d, md = some d → d ≤ x.last_changed_date) ∧
    (∀ l ∈ read_leagues db skip limit md lname,
       (∀ d, md = some d → d ≤ l.last_changed_date) ∧
       (∀ s, lname = some s → l.league_name = s)) ∧
    (∀ t ∈ read_teams db skip limit md tname li,
       (∀ d, md = some d → d ≤ t.last_changed_date) ∧
       (∀ s, tname = some s → t.team_name = s) ∧
       (∀ i, li = some i → t.league_id = i)) := by
  refine ⟨?_, ?_, ?_, ?_⟩
  · intro p hp
    have hf := (List.mem_filter.mp (mem_of_mem_paginate hp)).2
    simp only [playerMatches, Bool.and_eq_true] at hf
    refine ⟨fun d hd => ?_, fun s hs => ?_, fun s hs => ?_⟩
    · subst hd; simpa [optFilter] using hf.1.1
    · subst hs; simpa [optFilter] using hf.1.2
    · subst hs; simpa [optFilter] using hf.2
  · intro x hx
    have hf := (List.mem_filter.mp (mem_of_mem_paginate hx)).2
    intro d hd
    subst hd
    simpa [performanceMatches, optFilter] using hf
  · intro l hl
    have hf := (List.mem_filter.mp (mem_of_mem_paginate hl)).2
    simp only [leagueMatches, Bool.and_eq_true] at hf
    refine ⟨fun d hd => ?_, fun s hs => ?_⟩
    · subst hd; simpa [optFilter] using hf.1
    · subst hs; simpa [optFilter] using hf.2
  · intro t ht
    have hf := (List.mem_filter.mp (mem_of_mem_paginate ht)).2
    simp only [teamMatches, Bool.and_eq_true] at hf
    refine ⟨fun d hd => ?_, fun s hs => ?_, fun i hi => ?_⟩
    · subst hd; simpa [optFilter] using hf.1.1
    · subst hs; simpa [optFilter] using hf.1.2
    · subst hi; simpa [optFilter] using hf.2

/-- Witness for C5 on the sample store: a team returned under all three
team filters satisfies each of them, and a player returned under both name
filters satisfies each of them. -/
theorem filters_compose_with_and_witness :
    (1 ≤ (Team.mk 1 "Patriots" 1 6).last_changed_date ∧
     (Team.mk 1 "Patriots" 1 6).team_name = "Patriots" ∧
     (Team.mk 1 "Patriots" 1 6).league_id = 1) ∧
    ((Player.mk 1 "Tom" "Brady" 5).first_name = "Tom" ∧
     (Player.mk 1 "Tom" "Brady" 5).last_name = "Brady") := by
  have h := filters_compose_with_and sampleDB 0 100 (some 1)
    (some "Tom") (some "Brady") none (some "Patriots") (some 1)
  have ht := h.2.2.2 (Team.mk 1 "Patriots" 1 6) (by decide)
  have hp := h.1 (Player.mk 1 "Tom" "Brady" 5) (by decide)
  exact ⟨⟨ht.1 1 rfl, ht.2.1 "Patriots" rfl, ht.2.2 1 rfl⟩,
         hp.2.1 "Tom" rfl, hp.2.2 "Brady" rfl⟩

/-- C6: every listing endpoint defaults `skip` to 0 and `limit` to 100, so
a request supplying neither behaves identically to one supplying
`skip=0&limit=100`, and both equal the handler applied at 0 and 100. -/
theorem pagination_defaults (db : DB) (md : Option Nat)
    (fn ln lname tname : Option String) (li pid : Option Nat) :
    (handle_players db ⟨none, none, md, fn, ln, lname, tname, li, pid⟩
       = handle_players db ⟨some 0, some 100, md, fn, ln, lname, tname, li, pid⟩ ∧
     handle_players db ⟨none, none, md, fn, ln, lname, tname, li, pid⟩
       = read_players db 0 100 md fn ln) ∧
    (handle_performances db ⟨none, none, md, fn, ln, lname, tname, li, pid⟩
       = handle_performances db ⟨some 0, some 100, md, fn, ln, lname, tname, li, pid⟩ ∧
     handle_performances db ⟨none, none, md, fn, ln, lname, tname, li, pid⟩
       = read_performances db 0 100 md) ∧
    (handle_leagues db ⟨none, none, md, fn, ln, lname, tname, li, pid⟩
       = handle_leagues db ⟨some 0, some 100, md, fn, ln, lname, tname, li, pid⟩ ∧
     handle_leagues db ⟨none, none, md, fn, ln, lname, tname, li, pid⟩
       = read_leagues db 0 100 md lname) ∧
    (handle_teams db ⟨none, none, md, fn, ln, lname, tname, li, pid⟩
       = handle_teams db ⟨some 0, some 100, md, fn, ln, lname, tname, li, pid⟩ ∧
     handle_teams db ⟨none, none, md, fn, ln, lname, tname, li, pid⟩
       = read_teams db 0 100 md tname li) :=
  ⟨⟨rfl, rfl⟩, ⟨rfl, rfl⟩, ⟨rfl, rfl⟩, ⟨rfl, rfl⟩⟩

/-- C7: for every listing endpoint and every combination of filter values,
when no row matches the filters the endpoint returns the empty list (and,
by its return type, never signals an error; only the single-entity lookups
have an error path). -/
theorem empty_when_no_match (db : DB) (skip limit : Nat) (md : Option Nat)
    (fn ln lname tname : Option String) (li : Option Nat) :
    ((∀ p ∈ db.players, playerMatches md fn ln p = false) →
       read_players db skip limit md fn ln = []) ∧
    ((∀ x ∈ db.performances, performanceMatches md x = false) →
       read_performances db skip limit md = []) ∧
    ((∀ l ∈ db.leagues, leagueMatches md lname l = false) →
       read_leagues db skip limit md lname = []) ∧
    ((∀ t ∈ db.teams, teamMatches md tname li t = false) →
       read_teams db skip limit md tname li = []) := by
  refine ⟨?_, ?_, ?_, ?_⟩
  · intro h
    have hnil : db.players.filter (playerMatches md fn ln) = [] :=
      List.filter_eq_nil_iff.mpr (fun a ha => by simp [h a ha])
    show paginate (db.players.filter (playerMatches md fn ln)) skip limit = []
    rw [hnil]
    simp [paginate]
  · intro h
    have hnil : db.performances.filter (performanceMatches md) = [] :=
      List.filter_eq_nil_iff.mpr (fun a ha => by simp [h a ha])
    show paginate (db.performances.filter (performanceMatches md)) skip limit = []
    rw [hnil]
    simp [paginate]
  · intro h
    have hnil : db.leagues.filter (leagueMatches md lname) = [] :=
      List.filter_eq_nil_iff.mpr (fun a ha => by simp [h a ha])
    show paginate (db.leagues.filter (leagueMatches md lname)) skip limit = []
    rw [hnil]
    simp [paginate]
  · intro h
    have hnil : db.teams.filter (teamMatches md tname li) = [] :=
      List.filter_eq_nil_iff.mpr (fun a ha => by simp [h a ha])
    show paginate (db.teams.filter (teamMatches md tname li)) skip limit = []
    rw [hnil]
    simp [paginate]

/-- Witness for C7 on the sample store: a date bound above every timestamp
empties players, performances and leagues, and a name matching no team
empties teams. -/
theorem empty_when_no_match_witness :
    read_players sampleDB 0 100 (some 100) none none = [] ∧
    read_performances sampleDB 0 100 (some 100) = [] ∧
    read_leagues sampleDB 0 100 (some 100) none = [] ∧
    read_teams sampleDB 0 100 none (some "Nonexistent") none = [] := by
  have h := empty_when_no_match sampleDB 0 100 (some 100) none none none none none
  have h2 := empty_when_no_match sampleDB 0 100 none none none none (some "Nonexistent") none
  exact ⟨h.1 (by decide), h.2.1 (by decide), h.2.2.1 (by decide), h2.2.2.2 (by decide)⟩

/-- C8: every request handler acquires its own scoped database session at
request start and releases it on every exit path — success or not-found —
so the session trace of any handler invocation is exactly one acquisition
followed by one release; no session is left open. -/
theorem session_scoped_per_request (req : Request) (db : DB) :
    (serve req db).2.2 = [SessionEvent.acquired, SessionEvent.released] := by
  cases h : handlerBody req db <;> simp [serve, h]

/-- C9: no API operation modifies the relational store — for every request
and every store, the four entity tables after serving the request equal
their state before it; the API is read-only. -/
theorem api_read_only (req : Request) (db : DB) :
    (serve req db).2.1 = db := by
  cases h : handlerBody req db <;> simp [serve, h]

/-- C10: the performances listing endpoint declares no entity-specific
filter, so its result depends only on the store, `skip`, `limit` and
`minimum_last_changed_date`: two requests agreeing on those parameters
return the same list even if every other query-string parameter — in
particular `player_id` — differs. -/
theorem performances_no_entity_filter (db : DB) (q₁ q₂ : QueryString)
    (hs : q₁.skip = q₂.skip) (hl : q₁.limit = q₂.limit)
    (hd : q₁.minimum_last_changed_date = q₂.minimum_last_changed_date) :
    handle_performances db q₁ = handle_performances db q₂ := by
  simp [handle_performances, hs, hl, hd]

/-- Witness for C10 on the sample store: supplying `player_id=1` in the
query string leaves the performances result unchanged. -/
theorem performances_no_entity_filter_witness :
    handle_performances sampleDB ⟨some 0, some 100, none, none, none, none, none, none, some 1⟩
      = handle_performances sampleDB ⟨some 0, some 100, none, none, none, none, none, none, none⟩ :=
  performances_no_entity_filter sampleDB
    ⟨some 0, some 100, none, none, none, none, none, none, some 1⟩
    ⟨some 0, some 100, none, none, none, none, none, none, none⟩ rfl rfl rfl
